import Mathlib

/-!
Verification of the fleet manager (`BotCommander`, src/server.js lines 983-1365)
and its HTTP entry points (lines 2475-2565).

The JavaScript class is shallowly embedded: the two `Map`s (`bots`, `botData`)
become association lists keyed by bot id, the stats object becomes a record of
integers, command dispatch becomes a pure function from a commander state, a
command name, parameters and an oracle of external outcomes (timer values,
pathfinding success, random draws) to a new state, a result object and a list
of emitted session-level actions.  Lifecycle event handlers become functions
from states to states paired with the actions they emit.
-/

/-- Lifecycle status strings assigned to `botData` records in server.js:
connecting (1075), connected (1106), kicked (1160), error (1094, 1169),
dead (1176), disconnected (1184). -/
inductive Status where
  | connecting
  | connected
  | kicked
  | error
  | dead
  | disconnected
deriving DecidableEq, Repr

/-- Integer block position mirrored into a record (lines 1126-1130). -/
structure Vec3 where
  x : Int
  y : Int
  z : Int
deriving DecidableEq, Repr

/-- Command parameters; the JS handlers read `params.message`, `params.x/y/z`,
`params.player`, `params.yaw`, `params.pitch`, `params.target`, each possibly
absent (undefined).  Coordinates are modelled as integers and angles as
rationals (JS numbers). -/
structure Params where
  message : Option String := none
  x : Option Int := none
  y : Option Int := none
  z : Option Int := none
  player : Option String := none
  yaw : Option Rat := none
  pitch : Option Rat := none
  target : Option String := none
deriving DecidableEq, Repr

/-- The object stored in `data.lastCommand` (line 1214). -/
structure LastCommand where
  command : String
  params : Params
  timestamp : Nat
deriving DecidableEq, Repr

/-- The per-bot record stored in `this.botData` (lines 1072-1083). -/
structure BotData where
  id : Nat
  name : String
  status : Status
  position : Vec3
  health : Int
  food : Int
  activity : String
  connectedAt : Option Nat
  server : String
  lastCommand : Option LastCommand
deriving DecidableEq, Repr

/-- The mineflayer session handle stored in `this.bots`.  Only its username is
observed by the embedded code (history messages, chat self-filter). -/
structure Session where
  username : String
deriving DecidableEq, Repr

/-- Reading `bot.status` on a mineflayer session object: the library never sets
such a property, so the read yields undefined.  (The availability guard at line
1209 compares this against the string disconnected.) -/
def Session.statusProp (_ : Session) : Option String := none

/-- The server configuration (lines 1002-1008).  `maxBots` is stored and shown
in the web page but is otherwise unread. -/
structure ServerConfig where
  host : String
  port : Nat
  version : String
  maxBots : Nat
  defaultBotPrefix : String
deriving DecidableEq, Repr

/-- The default configuration built by `loadServerConfig` (lines 1002-1008)
before any file or environment override. -/
def defaultServerConfig : ServerConfig :=
  { host := "localhost", port := 25565, version := "1.20.1",
    maxBots := 10, defaultBotPrefix := "CommanderBot" }

/-- The stats object (lines 988-996).  `activeBots` is an integer because the
source decrements it without a lower bound. -/
structure Stats where
  startTime : Nat
  totalBotsCreated : Nat
  activeBots : Int
  messagesSent : Nat
  movements : Nat
  errors : Nat
  commandsExecuted : Nat
deriving DecidableEq, Repr

/-- One entry of `this.commandHistory` (lines 1192-1197); the ISO timestamp
string is modelled as a natural number (millisecond clock). -/
structure HistoryEntry where
  timestamp : Nat
  type : String
  message : String
  botCount : Int
deriving DecidableEq, Repr

/-! Association lists model the two JS `Map`s.  `alSet` replaces in place
(keeping insertion order, as `Map.set` does) or appends a fresh entry, `alDel`
removes the entry of a key, `alGet` reads the first entry of a key. -/

abbrev BotId := Nat

def alGet {α : Type} : List (BotId × α) → BotId → Option α
  | [], _ => none
  | (k2, v) :: rest, k => if k2 = k then some v else alGet rest k

def alSet {α : Type} : List (BotId × α) → BotId → α → List (BotId × α)
  | [], k, v => [(k, v)]
  | (k2, w) :: rest, k, v =>
      if k2 = k then (k2, v) :: rest else (k2, w) :: alSet rest k v

def alDel {α : Type} : List (BotId × α) → BotId → List (BotId × α)
  | [], _ => []
  | (k2, v) :: rest, k => if k2 = k then alDel rest k else (k2, v) :: alDel rest k

/-- JS `Map` keys are unique; the embedding states this as nodup of the key
column and proves it is preserved by every operation. -/
def keysNodup {α : Type} (m : List (BotId × α)) : Prop :=
  (m.map Prod.fst).Nodup

theorem alGet_alSet_self {α : Type} (m : List (BotId × α)) (k : BotId) (v : α) :
    alGet (alSet m k v) k = some v := by
  induction m with
  | nil => simp [alGet, alSet]
  | cons p rest ih =>
      obtain ⟨k2, w⟩ := p
      by_cases h : k2 = k
      · simp [alSet, alGet, h]
      · simp [alSet, alGet, h, ih]

theorem alGet_alSet_ne {α : Type} (m : List (BotId × α)) (k i : BotId) (v : α)
    (h : i ≠ k) : alGet (alSet m k v) i = alGet m i := by
  induction m with
  | nil =>
      have hk : ¬ (k = i) := fun hh => h hh.symm
      simp [alGet, alSet, hk]
  | cons p rest ih =>
      obtain ⟨k2, w⟩ := p
      have hki : ¬ (k = i) := fun hh => h hh.symm
      by_cases hk : k2 = k
      · simp [alSet, alGet, hk, hki]
      · by_cases hi : k2 = i
        · simp [alSet, alGet, hk, hi, h]
        · simp [alSet, alGet, hk, hi, ih]

theorem alGet_alDel_self {α : Type} (m : List (BotId × α)) (k : BotId) :
    alGet (alDel m k) k = none := by
  induction m with
  | nil => simp [alGet, alDel]
  | cons p rest ih =>
      obtain ⟨k2, w⟩ := p
      by_cases h : k2 = k
      · simp [alDel, h, ih]
      · simp [alDel, alGet, h, ih]

theorem alGet_alDel_ne {α : Type} (m : List (BotId × α)) (k i : BotId)
    (h : i ≠ k) : alGet (alDel m k) i = alGet m i := by
  induction m with
  | nil => simp [alGet, alDel]
  | cons p rest ih =>
      obtain ⟨k2, w⟩ := p
      have hki : ¬ (k = i) := fun hh => h hh.symm
      by_cases hk : k2 = k
      · simp [alDel, alGet, hk, hki, ih]
      · by_cases hi : k2 = i
        · simp [alDel, alGet, hk, hi, h]
        · simp [alDel, alGet, hk, hi, ih]

theorem alSet_keys_mem {α : Type} (m : List (BotId × α)) (k j : BotId) (v : α)
    (h : j ∈ (alSet m k v).map Prod.fst) :
    j ∈ m.map Prod.fst ∨ j = k := by
  induction m with
  | nil => simpa [alSet] using h
  | cons p rest ih =>
      obtain ⟨k2, w⟩ := p
      by_cases hk : k2 = k
      · refine Or.inl ?_
        simpa [alSet, hk] using h
      · simp only [alSet, hk, if_false, List.map_cons, List.mem_cons] at h
        rcases h with h1 | h1
        · exact Or.inl (by simp [h1])
        · rcases ih h1 with h2 | h2
          · exact Or.inl (by simp [h2])
          · exact Or.inr h2

theorem alDel_keys_mem {α : Type} (m : List (BotId × α)) (k j : BotId)
    (h : j ∈ (alDel m k).map Prod.fst) : j ∈ m.map Prod.fst := by
  induction m with
  | nil => simp [alDel] at h
  | cons p rest ih =>
      obtain ⟨k2, w⟩ := p
      by_cases hk : k2 = k
      · simp only [alDel, hk, if_true] at h
        exact List.mem_cons_of_mem _ (ih h)
      · simp only [alDel, hk, if_false, List.map_cons, List.mem_cons] at h
        rcases h with h1 | h1
        · exact List.mem_cons.mpr (Or.inl h1)
        · exact List.mem_cons_of_mem _ (ih h1)

theorem keysNodup_alSet {α : Type} (m : List (BotId × α)) (k : BotId) (v : α)
    (h : keysNodup m) : keysNodup (alSet m k v) := by
  induction m with
  | nil => simp [keysNodup, alSet]
  | cons p rest ih =>
      obtain ⟨k2, w⟩ := p
      simp only [keysNodup, List.map_cons, List.nodup_cons] at h
      by_cases hk : k2 = k
      · show keysNodup (alSet ((k2, w) :: rest) k v)
        rw [alSet, if_pos hk]
        simp only [keysNodup, List.map_cons, List.nodup_cons]
        exact ⟨h.1, h.2⟩
      · have hrest := ih h.2
        simp only [keysNodup, alSet, hk, if_false, List.map_cons,
          List.nodup_cons]
        refine ⟨?_, hrest⟩
        intro hmem
        rcases alSet_keys_mem rest k k2 v hmem with h6 | h6
        · exact h.1 h6
        · exact hk h6

theorem keysNodup_alDel {α : Type} (m : List (BotId × α)) (k : BotId)
    (h : keysNodup m) : keysNodup (alDel m k) := by
  induction m with
  | nil => simp [keysNodup, alDel]
  | cons p rest ih =>
      obtain ⟨k2, w⟩ := p
      simp only [keysNodup, List.map_cons, List.nodup_cons] at h
      by_cases hk : k2 = k
      · simp only [alDel, hk, if_true]
        exact ih h.2
      · simp only [keysNodup, alDel, hk, if_false, List.map_cons,
          List.nodup_cons]
        exact ⟨fun hmem => h.1 (alDel_keys_mem rest k k2 hmem), ih h.2⟩

theorem alSet_alSet {α : Type} (m : List (BotId × α)) (k : BotId) (v w : α) :
    alSet (alSet m k v) k w = alSet m k w := by
  induction m with
  | nil => simp [alSet]
  | cons p rest ih =>
      obtain ⟨k2, u⟩ := p
      by_cases h : k2 = k <;> simp [alSet, h, ih]

theorem alSet_length_of_get_none {α : Type} (m : List (BotId × α)) (k : BotId)
    (v : α) (h : alGet m k = none) : (alSet m k v).length = m.length + 1 := by
  induction m with
  | nil => simp [alSet]
  | cons p rest ih =>
      obtain ⟨k2, w⟩ := p
      by_cases hk : k2 = k
      · simp [alGet, hk] at h
      · simp only [alGet, hk, if_false] at h
        simp [alSet, hk, ih h]

/-! The commander state: the fields of the `BotCommander` object
(lines 984-998). -/

structure Commander where
  bots : List (BotId × Session)
  botData : List (BotId × BotData)
  serverConfig : ServerConfig
  stats : Stats
  commandHistory : List HistoryEntry
deriving DecidableEq, Repr

/-- The freshly constructed commander (lines 984-998): empty maps, zeroed
counters, empty history.  The configuration is a parameter because
`loadServerConfig` merges a file and environment variables. -/
def initCommander (startTime : Nat) (cfg : ServerConfig) : Commander :=
  { bots := [], botData := [], serverConfig := cfg,
    stats := { startTime := startTime, totalBotsCreated := 0, activeBots := 0,
               messagesSent := 0, movements := 0, errors := 0,
               commandsExecuted := 0 },
    commandHistory := [] }

/-- List-level core of `addToHistory` (lines 1191-1205): unshift the new entry,
then pop the last entry when the length exceeds 50. -/
def histInsert (h : List HistoryEntry) (e : HistoryEntry) : List HistoryEntry :=
  let h2 := e :: h
  if h2.length > 50 then h2.dropLast else h2

/-- addToHistory (lines 1191-1205).  The entry records the current
`stats.activeBots` as botCount; the returned entry itself is unused by every
caller, so only the new state is returned. -/
def addToHistory (s : Commander) (ts : Nat) (type message : String) :
    Commander :=
  let entry : HistoryEntry :=
    { timestamp := ts, type := type, message := message,
      botCount := s.stats.activeBots }
  { s with commandHistory := histInsert s.commandHistory entry }

/-- Session-level effects emitted by the commander: connection attempts,
disconnects, chat lines, pathfinding goals, control toggles and scheduled
timers.  `scheduleReconnect` exists to state the reconnection-policy claim; no
operation of the source ever emits it. -/
inductive BotAction where
  | connect (id : BotId) (username : String)
  | quit (id : BotId)
  | chatSend (id : BotId) (message : String)
  | scheduleWelcome (id : BotId) (delayMs : Nat)
  | scheduleReconnect (id : BotId) (name : String) (delayMs : Nat)
  | scheduleCreate (id : BotId) (name : String) (delayMs : Nat)
  | gotoGoal (id : BotId) (x y z : Option Int) (radius : Nat)
  | followGoal (id : BotId) (player : String) (radius : Nat)
  | stopGoal (id : BotId)
  | controlJump (id : BotId)
  | lookAt (id : BotId) (yaw pitch : Rat)
  | attackEntity (id : BotId) (target : String)
deriving DecidableEq, Repr

def BotAction.isQuit : BotAction → Bool
  | .quit _ => true
  | _ => false

def BotAction.isReconnect : BotAction → Bool
  | .scheduleReconnect _ _ _ => true
  | _ => false

/-- createBot (lines 1052-1100).  `ok` tells whether `mineflayer.createBot`
returned a handle (try branch) or threw (catch branch).  The try branch
registers the session and a fresh connecting record and bumps
`totalBotsCreated`; the catch branch only overwrites the record with an error
record (its JS original leaves position, health, food, connectedAt, server
undefined; the embedding uses the neutral defaults of the connecting record)
and returns null, emitting nothing. -/
def createBot (s : Commander) (id : BotId) (botName : Option String)
    (ok : Bool) : Commander × List BotAction :=
  let name := botName.getD (s.serverConfig.defaultBotPrefix ++ toString id)
  if ok then
    let record : BotData :=
      { id := id, name := name, status := .connecting,
        position := { x := 0, y := 0, z := 0 }, health := 20, food := 20,
        activity := "waiting", connectedAt := none,
        server := s.serverConfig.host ++ ":" ++ toString s.serverConfig.port,
        lastCommand := none }
    ({ s with
        bots := alSet s.bots id { username := name },
        botData := alSet s.botData id record,
        stats := { s.stats with
          totalBotsCreated := s.stats.totalBotsCreated + 1 } },
     [BotAction.connect id name])
  else
    let record : BotData :=
      { id := id, name := name, status := .error,
        position := { x := 0, y := 0, z := 0 }, health := 20, food := 20,
        activity := "failed", connectedAt := none, server := "",
        lastCommand := none }
    ({ s with botData := alSet s.botData id record }, [])

/-- Result of POST /api/bots/create (lines 2490-2501): the new id is the
current size of the bots map and the response succeeds exactly when createBot
returned a handle. -/
structure ApiCreateOut where
  state : Commander
  success : Bool
  id : BotId
  actions : List BotAction
deriving DecidableEq, Repr

def apiCreateBot (s : Commander) (name : Option String) (ok : Bool) :
    ApiCreateOut :=
  let id := s.bots.length
  let out := createBot s id name ok
  { state := out.1, success := ok, id := id, actions := out.2 }

/-- spawn handler (lines 1105-1139): mark the record connected, stamp
connectedAt, bump activeBots, and schedule the delayed welcome chat (3s); the
1-second snapshot interval and the welcome chat firing are modelled as the
separate steps onPositionTick and onTimerChat.  The handler closure writes to
the record captured at setup time, which is the record registered for the id
except when the id has been re-created meanwhile; the embedding writes to the
currently registered record. -/
def onSpawned (s : Commander) (id : BotId) (now : Nat) :
    Commander × List BotAction :=
  let bd := match alGet s.botData id with
    | some d =>
        alSet s.botData id { d with status := .connected, connectedAt := some now }
    | none => s.botData
  ({ s with
      botData := bd,
      stats := { s.stats with activeBots := s.stats.activeBots + 1 } },
   [BotAction.scheduleWelcome id 3000])

/-- chat handler (lines 1141-1156): ignore the bot talking to itself,
bump messagesSent, log a chat history entry; when mentioned, schedule a reply
(whose own messagesSent bump is the onTimerChat step).  `mentioned` stands for
the lowercase-inclusion test on the message. -/
def onChatMessage (s : Commander) (id : BotId) (username message : String)
    (ts : Nat) (mentioned : Bool) : Commander × List BotAction :=
  match alGet s.bots id with
  | none => (s, [])
  | some bot =>
      if username = bot.username then (s, [])
      else
        let s1 := { s with stats :=
          { s.stats with messagesSent := s.stats.messagesSent + 1 } }
        let s2 := addToHistory s1 ts "chat" (username ++ ": " ++ message)
        (s2, if mentioned
             then [BotAction.chatSend id ("Oui " ++ username ++ "?")]
             else [])

/-- kicked handler (lines 1158-1165): mark the record kicked, decrement
activeBots, log a system history entry.  Nothing is scheduled: the source has
no reconnection code of any kind. -/
def onKicked (s : Commander) (id : BotId) (reason : String) (ts : Nat) :
    Commander × List BotAction :=
  let username := ((alGet s.bots id).map Session.username).getD ""
  let bd := match alGet s.botData id with
    | some d =>
        alSet s.botData id { d with status := .kicked, activity := "kicked" }
    | none => s.botData
  let s1 := { s with
      botData := bd,
      stats := { s.stats with activeBots := s.stats.activeBots - 1 } }
  (addToHistory s1 ts "system" (username ++ " kické: " ++ reason), [])

/-- error handler (lines 1167-1172): mark the record, bump errors; no history
entry, no activeBots change, session kept. -/
def onErrored (s : Commander) (id : BotId) : Commander × List BotAction :=
  let bd := match alGet s.botData id with
    | some d =>
        alSet s.botData id { d with status := .error, activity := "error" }
    | none => s.botData
  ({ s with
      botData := bd,
      stats := { s.stats with errors := s.stats.errors + 1 } }, [])

/-- death handler (lines 1174-1179): mark the record dead, log a system
history entry; stats and session untouched. -/
def onDied (s : Commander) (id : BotId) (ts : Nat) :
    Commander × List BotAction :=
  let username := ((alGet s.bots id).map Session.username).getD ""
  let bd := match alGet s.botData id with
    | some d =>
        alSet s.botData id { d with status := .dead, activity := "dead" }
    | none => s.botData
  (addToHistory { s with botData := bd } ts "system"
    (username ++ " est mort"), [])

/-- end handler (lines 1181-1188): set the record to disconnected UNLESS it is
currently kicked (the guard at line 1183), decrement activeBots
unconditionally, and drop the session from the registry. -/
def onEnded (s : Commander) (id : BotId) : Commander × List BotAction :=
  let bd := match alGet s.botData id with
    | some d =>
        if d.status = .kicked then s.botData
        else alSet s.botData id { d with status := .disconnected }
    | none => s.botData
  ({ s with
      botData := bd,
      bots := alDel s.bots id,
      stats := { s.stats with activeBots := s.stats.activeBots - 1 } }, [])

/-- JS string interpolation of a possibly-undefined number. -/
def showOptInt : Option Int → String
  | some n => toString n
  | none => "undefined"

/-- JS `a || b` on a number `a`: undefined and 0 are falsy (line 1275-1276). -/
def jsOrRat : Option Rat → Rat → Rat
  | none, r => r
  | some q, r => if q = 0 then r else q

/-- External outcomes consumed by one executeCommand call: the Date.now and
history timestamps, whether the awaited pathfinder goal resolved, the error
message of a rejected goal, whether the follow target and attack target were
found, the inventory snapshot and the two random angle draws of the look
default. -/
structure Oracle where
  now : Nat
  histTs : Nat
  gotoOk : Bool
  errMsg : String
  playerFound : Bool
  entityFound : Bool
  items : List (String × Nat)
  randYaw : Rat
  randPitch : Rat
deriving DecidableEq, Repr

/-- The JS result object: `{success, message?}` or `{success, error?}`, plus
the items list the inventory branch adds. -/
structure CmdResult where
  success : Bool
  message : Option String := none
  error : Option String := none
  items : Option (List (String × Nat)) := none
deriving DecidableEq, Repr

structure ExecOut where
  state : Commander
  result : CmdResult
  actions : List BotAction
deriving DecidableEq, Repr

/-- Success result object `{success: true, message}`. -/
def okRes (m : String) : CmdResult :=
  { success := true, message := some m }

/-- Failure result object `{success: false, error}`. -/
def failRes (e : String) : CmdResult :=
  { success := false, error := some e }

/-- executeCommand (lines 1207-1323).  The availability guard (1208-1211)
checks the session map and the (nonexistent, hence always undefined) status
property of the session object.  Past the guard, lastCommand is recorded and
commandsExecuted bumped BEFORE dispatching on the command string.  The record
missing while the session exists would be an uncaught TypeError at line 1214;
it is modelled as a plain failure and is unreachable from the initial state. -/
def executeCommand (s : Commander) (botId : BotId) (command : String)
    (params : Params) (o : Oracle) : ExecOut :=
  match alGet s.bots botId with
  | none => { state := s, result := failRes "Bot non disponible", actions := [] }
  | some bot =>
      if bot.statusProp = some "disconnected" then
        { state := s, result := failRes "Bot non disponible", actions := [] }
      else
        match alGet s.botData botId with
        | none => { state := s, result := failRes "TypeError", actions := [] }
        | some data0 =>
            let lc : LastCommand :=
              { command := command, params := params, timestamp := o.now }
            let data := { data0 with lastCommand := some lc }
            let s1 := { s with
              botData := alSet s.botData botId data,
              stats := { s.stats with
                commandsExecuted := s.stats.commandsExecuted + 1 } }
            if command = "chat" then
              let message := params.message.getD "undefined"
              let s2 := { s1 with stats := { s1.stats with
                messagesSent := s1.stats.messagesSent + 1 } }
              let s3 := addToHistory s2 o.histTs "command"
                (data.name ++ ": \"" ++ message ++ "\"")
              { state := s3,
                result := okRes ("Message envoyé: \"" ++ message ++ "\""),
                actions := [BotAction.chatSend botId message] }
            else if command = "move" then
              let s2 := { s1 with
                botData := alSet s1.botData botId { data with activity := "moving" } }
              if o.gotoOk then
                let s3 := { s2 with
                  stats := { s2.stats with
                    movements := s2.stats.movements + 1 },
                  botData :=
                    alSet s2.botData botId { data with activity := "idle" } }
                let coords := showOptInt params.x ++ ", " ++
                  showOptInt params.y ++ ", " ++ showOptInt params.z
                let s4 := addToHistory s3 o.histTs "command"
                  (data.name ++ " déplacé vers " ++ coords)
                { state := s4,
                  result := okRes ("Déplacé vers " ++ coords),
                  actions :=
                    [BotAction.gotoGoal botId params.x params.y params.z 2] }
              else
                { state := { s2 with stats := { s2.stats with
                    errors := s2.stats.errors + 1 } },
                  result := failRes o.errMsg,
                  actions :=
                    [BotAction.gotoGoal botId params.x params.y params.z 2] }
            else if command = "follow" then
              let playerName := params.player.getD "undefined"
              if o.playerFound then
                let s2 := { s1 with
                  botData := alSet s1.botData botId
                      { data with activity := "following " ++ playerName } }
                let s3 := addToHistory s2 o.histTs "command"
                  (data.name ++ " suit " ++ playerName)
                { state := s3,
                  result := okRes ("Suit " ++ playerName),
                  actions := [BotAction.followGoal botId playerName 3] }
              else
                { state := s1,
                  result := failRes ("Joueur " ++ playerName ++ " non trouvé"),
                  actions := [] }
            else if command = "stop" then
              let s2 := { s1 with
                botData := alSet s1.botData botId { data with activity := "idle" } }
              let s3 := addToHistory s2 o.histTs "command"
                (data.name ++ " arrêté")
              { state := s3,
                result := okRes "Mouvement arrêté",
                actions := [BotAction.stopGoal botId] }
            else if command = "jump" then
              let s2 := { s1 with
                botData := alSet s1.botData botId { data with activity := "jumping" } }
              let s3 := addToHistory s2 o.histTs "command"
                (data.name ++ " a sauté")
              { state := s3,
                result := okRes "Sauté!",
                actions := [BotAction.controlJump botId] }
            else if command = "look" then
              let yaw := jsOrRat params.yaw o.randYaw
              let pitch := jsOrRat params.pitch o.randPitch
              let s2 := { s1 with
                botData := alSet s1.botData botId { data with activity := "looking" } }
              let s3 := addToHistory s2 o.histTs "command"
                (data.name ++ " regarde autour")
              { state := s3,
                result := okRes "Regarde autour",
                actions := [BotAction.lookAt botId yaw pitch] }
            else if command = "inventory" then
              let itemList :=
                if o.items.isEmpty then "vide"
                else String.intercalate ", "
                  (o.items.map (fun it => it.1 ++ " x" ++ toString it.2))
              { state := s1,
                result := { okRes ("Inventaire: " ++ itemList) with
                  items := some o.items },
                actions := [] }
            else if command = "attack" then
              let target := params.target.getD "undefined"
              if o.entityFound then
                let s2 := { s1 with
                  botData := alSet s1.botData botId
                      { data with activity := "attacking " ++ target } }
                let s3 := addToHistory s2 o.histTs "command"
                  (data.name ++ " attaque " ++ target)
                { state := s3,
                  result := okRes ("Attaque " ++ target),
                  actions := [BotAction.attackEntity botId target] }
              else
                { state := s1,
                  result := failRes ("Cible " ++ target ++ " non trouvée"),
                  actions := [] }
            else
              { state := s1,
                result := failRes ("Commande inconnue: " ++ command),
                actions := [] }

structure RemoveOut where
  state : Commander
  ok : Bool
  actions : List BotAction
deriving DecidableEq, Repr

/-- removeBot (lines 1344-1354): keyed on the SESSION map; when a session
exists it is quit and both map entries are dropped, otherwise nothing happens
and false is returned (the DELETE route then answers 404). -/
def removeBot (s : Commander) (id : BotId) : RemoveOut :=
  match alGet s.bots id with
  | some _ =>
      { state := { s with
          bots := alDel s.bots id,
          botData := alDel s.botData id },
        ok := true, actions := [BotAction.quit id] }
  | none => { state := s, ok := false, actions := [] }

/-- stopAllBots (lines 1356-1364): quit every session, clear both maps, reset
activeBots to zero. -/
def stopAllBots (s : Commander) : Commander × List BotAction :=
  ({ s with
      bots := [], botData := [],
      stats := { s.stats with activeBots := 0 } },
   s.bots.map (fun p => BotAction.quit p.1))

/-- updateServerConfig (lines 1036-1050): merge host, port and version into
the config (saveServerConfig keeps the remaining fields), and for every
registered session whose record is connected, quit it and schedule a
re-creation of the same id and name after 2000ms.  The maps themselves are not
touched here. -/
def updateServerConfig (s : Commander) (host : String) (port : Nat)
    (version : String) : Commander × List BotAction :=
  let cfg := { s.serverConfig with
    host := host, port := port, version := version }
  let acts := s.bots.foldr (fun p acc =>
    match alGet s.botData p.1 with
    | some d =>
        if d.status = .connected
        then BotAction.quit p.1 :: BotAction.scheduleCreate p.1 d.name 2000
          :: acc
        else acc
    | none => acc) []
  ({ s with serverConfig := cfg }, acts)

/-- The 1s timers of jump (line 1268) and look (line 1279): reset the activity
to idle only when it still equals what the command set. -/
def onActivityTimeout (s : Commander) (id : BotId) (expect : String) :
    Commander :=
  match alGet s.botData id with
  | some d =>
      if d.activity = expect
      then { s with botData := alSet s.botData id { d with activity := "idle" } }
      else s
  | none => s

/-- The 3s attack timer (line 1304): reset when the activity still starts with
attacking (the JS includes-test). -/
def onAttackTimeout (s : Commander) (id : BotId) : Commander :=
  match alGet s.botData id with
  | some d =>
      if d.activity.startsWith "attacking"
      then { s with botData := alSet s.botData id { d with activity := "idle" } }
      else s
  | none => s

/-- A delayed chat firing (welcome message line 1118-1121, mention reply line
1151-1154): bumps messagesSent. -/
def onTimerChat (s : Commander) : Commander :=
  { s with stats :=
    { s.stats with messagesSent := s.stats.messagesSent + 1 } }

/-- One tick of the 1s snapshot interval (lines 1124-1138): while the session
is registered, copy position, health and food into the record. -/
def onPositionTick (s : Commander) (id : BotId) (p : Vec3)
    (health food : Int) : Commander :=
  match alGet s.bots id, alGet s.botData id with
  | some _, some d =>
      { s with botData :=
          alSet s.botData id { d with position := p, health := health, food := food } }
  | _, _ => s

/-! Derived quantities and the structural invariant connecting the two maps. -/

/-- Number of records whose status is connected. -/
def connectedCount : List (BotId × BotData) → Nat
  | [] => 0
  | p :: rest =>
      (if p.2.status = Status.connected then 1 else 0) + connectedCount rest

/-- The Fleet of the spec is the set of registered Agent Records. -/
def fleetSize (s : Commander) : Nat := s.botData.length

theorem connectedCount_alSet_some (m : List (BotId × BotData)) (k : BotId)
    (d v : BotData) (h : alGet m k = some d) :
    connectedCount (alSet m k v) +
      (if d.status = Status.connected then 1 else 0) =
    connectedCount m + (if v.status = Status.connected then 1 else 0) := by
  induction m with
  | nil => simp [alGet] at h
  | cons p rest ih =>
      obtain ⟨k2, w⟩ := p
      by_cases hk : k2 = k
      · rw [alGet, if_pos hk] at h
        have hwd : w = d := by injection h
        rw [alSet, if_pos hk]
        simp only [connectedCount, hwd]
        by_cases hv : v.status = Status.connected <;>
          by_cases hd2 : d.status = Status.connected <;>
            simp [hv, hd2] <;> omega
      · rw [alGet, if_neg hk] at h
        rw [alSet, if_neg hk]
        simp only [connectedCount]
        have := ih h
        omega

theorem connectedCount_alSet_none (m : List (BotId × BotData)) (k : BotId)
    (v : BotData) (h : alGet m k = none) :
    connectedCount (alSet m k v) =
      connectedCount m + (if v.status = Status.connected then 1 else 0) := by
  induction m with
  | nil => simp [alSet, connectedCount]
  | cons p rest ih =>
      obtain ⟨k2, w⟩ := p
      by_cases hk : k2 = k
      · rw [alGet, if_pos hk] at h
        exact absurd h (by simp)
      · rw [alGet, if_neg hk] at h
        rw [alSet, if_neg hk]
        simp only [connectedCount]
        rw [ih h]
        omega

/-- Status of the record registered for an id. -/
def statusAt (bd : List (BotId × BotData)) (i : BotId) : Option Status :=
  (alGet bd i).map BotData.status

theorem statusAt_alSet (bd : List (BotId × BotData)) (k : BotId) (v : BotData)
    (i : BotId) :
    statusAt (alSet bd k v) i =
      if i = k then some v.status else statusAt bd i := by
  by_cases h : i = k
  · subst h
    simp [statusAt, alGet_alSet_self]
  · simp [statusAt, h, alGet_alSet_ne bd k i v h]

/-- Well-formedness of the two maps: unique keys, and a record marked
disconnected never has a live session (the end handler is the only writer of
disconnected and it deletes the session in the same step). -/
def WFm (bs : List (BotId × Session)) (bd : List (BotId × BotData)) : Prop :=
  keysNodup bs ∧ keysNodup bd ∧
  ∀ i, statusAt bd i = some Status.disconnected → alGet bs i = none

def WF (s : Commander) : Prop := WFm s.bots s.botData

theorem WFm_setData {bs : List (BotId × Session)}
    {bd : List (BotId × BotData)} {k : BotId} {v : BotData}
    (h : WFm bs bd) (hv : v.status ≠ Status.disconnected) :
    WFm bs (alSet bd k v) := by
  refine ⟨h.1, keysNodup_alSet bd k v h.2.1, fun i hi => ?_⟩
  rw [statusAt_alSet] at hi
  by_cases hik : i = k
  · rw [if_pos hik] at hi
    exact absurd (Option.some.inj hi) hv
  · rw [if_neg hik] at hi
    exact h.2.2 i hi

theorem WFm_setData_keep {bs : List (BotId × Session)}
    {bd : List (BotId × BotData)} {k : BotId} {d v : BotData}
    (h : WFm bs bd) (hd : alGet bd k = some d) (hs : v.status = d.status) :
    WFm bs (alSet bd k v) := by
  refine ⟨h.1, keysNodup_alSet bd k v h.2.1, fun i hi => ?_⟩
  rw [statusAt_alSet] at hi
  by_cases hik : i = k
  · rw [if_pos hik] at hi
    subst hik
    refine h.2.2 i ?_
    rw [statusAt, hd]
    simp only [Option.map_some']
    rw [← hs]
    exact hi
  · rw [if_neg hik] at hi
    exact h.2.2 i hi

theorem WFm_create {bs : List (BotId × Session)}
    {bd : List (BotId × BotData)} {k : BotId} {sess : Session} {v : BotData}
    (h : WFm bs bd) (hv : v.status ≠ Status.disconnected) :
    WFm (alSet bs k sess) (alSet bd k v) := by
  refine ⟨keysNodup_alSet bs k sess h.1, keysNodup_alSet bd k v h.2.1,
    fun i hi => ?_⟩
  rw [statusAt_alSet] at hi
  by_cases hik : i = k
  · rw [if_pos hik] at hi
    exact absurd (Option.some.inj hi) hv
  · rw [if_neg hik] at hi
    rw [alGet_alSet_ne bs k i sess hik]
    exact h.2.2 i hi

theorem WFm_delSession {bs : List (BotId × Session)}
    {bd : List (BotId × BotData)} {k : BotId} (h : WFm bs bd) :
    WFm (alDel bs k) bd := by
  refine ⟨keysNodup_alDel bs k h.1, h.2.1, fun i hi => ?_⟩
  by_cases hik : i = k
  · subst hik
    exact alGet_alDel_self bs i
  · rw [alGet_alDel_ne bs k i hik]
    exact h.2.2 i hi

theorem WFm_ended {bs : List (BotId × Session)}
    {bd : List (BotId × BotData)} {k : BotId} {v : BotData}
    (h : WFm bs bd) : WFm (alDel bs k) (alSet bd k v) := by
  refine ⟨keysNodup_alDel bs k h.1, keysNodup_alSet bd k v h.2.1,
    fun i hi => ?_⟩
  by_cases hik : i = k
  · subst hik
    exact alGet_alDel_self bs i
  · rw [alGet_alDel_ne bs k i hik]
    rw [statusAt_alSet, if_neg hik] at hi
    exact h.2.2 i hi

theorem WFm_delBoth {bs : List (BotId × Session)}
    {bd : List (BotId × BotData)} {k : BotId} (h : WFm bs bd) :
    WFm (alDel bs k) (alDel bd k) := by
  refine ⟨keysNodup_alDel bs k h.1, keysNodup_alDel bd k h.2.1,
    fun i hi => ?_⟩
  by_cases hik : i = k
  · subst hik
    exact alGet_alDel_self bs i
  · rw [alGet_alDel_ne bs k i hik]
    refine h.2.2 i ?_
    rw [statusAt] at hi ⊢
    rw [alGet_alDel_ne bd k i hik] at hi
    exact hi

theorem WFm_nil : WFm ([] : List (BotId × Session))
    ([] : List (BotId × BotData)) := by
  refine ⟨by simp [keysNodup], by simp [keysNodup], fun i hi => ?_⟩
  simp [statusAt, alGet] at hi

/-! Reachability: every state the program can be in, starting from the
constructor and closed under the commander operations, the session lifecycle
handlers and the timer callbacks. -/

inductive Reachable : Commander → Prop where
  | init (startTime : Nat) (cfg : ServerConfig) :
      Reachable (initCommander startTime cfg)
  | create (s : Commander) (id : BotId) (name : Option String) (ok : Bool) :
      Reachable s → Reachable (createBot s id name ok).1
  | spawned (s : Commander) (id : BotId) (now : Nat) :
      Reachable s → Reachable (onSpawned s id now).1
  | chatMsg (s : Commander) (id : BotId) (username message : String)
      (ts : Nat) (mentioned : Bool) :
      Reachable s →
      Reachable (onChatMessage s id username message ts mentioned).1
  | kicked (s : Commander) (id : BotId) (reason : String) (ts : Nat) :
      Reachable s → Reachable (onKicked s id reason ts).1
  | errored (s : Commander) (id : BotId) :
      Reachable s → Reachable (onErrored s id).1
  | died (s : Commander) (id : BotId) (ts : Nat) :
      Reachable s → Reachable (onDied s id ts).1
  | ended (s : Commander) (id : BotId) :
      Reachable s → Reachable (onEnded s id).1
  | exec (s : Commander) (id : BotId) (command : String) (params : Params)
      (o : Oracle) :
      Reachable s → Reachable (executeCommand s id command params o).state
  | remove (s : Commander) (id : BotId) :
      Reachable s → Reachable (removeBot s id).state
  | stopAll (s : Commander) :
      Reachable s → Reachable (stopAllBots s).1
  | configUpdate (s : Commander) (host : String) (port : Nat)
      (version : String) :
      Reachable s → Reachable (updateServerConfig s host port version).1
  | activityTimeout (s : Commander) (id : BotId) (expect : String) :
      Reachable s → Reachable (onActivityTimeout s id expect)
  | attackTimeout (s : Commander) (id : BotId) :
      Reachable s → Reachable (onAttackTimeout s id)
  | timerChat (s : Commander) :
      Reachable s → Reachable (onTimerChat s)
  | positionTick (s : Commander) (id : BotId) (p : Vec3)
      (health food : Int) :
      Reachable s → Reachable (onPositionTick s id p health food)

theorem addToHistory_bots (s : Commander) (ts : Nat) (ty m : String) :
    (addToHistory s ts ty m).bots = s.bots := rfl

theorem addToHistory_botData (s : Commander) (ts : Nat) (ty m : String) :
    (addToHistory s ts ty m).botData = s.botData := rfl

theorem WF_createBot (s : Commander) (id : BotId) (name : Option String)
    (ok : Bool) (h : WF s) : WF (createBot s id name ok).1 := by
  unfold createBot
  by_cases hok : ok
  · simp only [hok, if_true]
    exact WFm_create h (by simp)
  · simp only [hok, if_false]
    exact WFm_setData h (by simp)

theorem WF_onSpawned (s : Commander) (id : BotId) (now : Nat) (h : WF s) :
    WF (onSpawned s id now).1 := by
  unfold onSpawned
  cases hd : alGet s.botData id with
  | none => exact h
  | some d =>
      simp only
      exact WFm_setData h (by simp)

theorem WF_onChatMessage (s : Commander) (id : BotId)
    (username message : String) (ts : Nat) (mentioned : Bool) (h : WF s) :
    WF (onChatMessage s id username message ts mentioned).1 := by
  unfold onChatMessage
  cases hb : alGet s.bots id with
  | none => exact h
  | some bot =>
      by_cases hu : username = bot.username
      · simp only [hu, if_true]
        exact h
      · simp only [hu, if_false]
        exact h

theorem WF_onKicked (s : Commander) (id : BotId) (reason : String) (ts : Nat)
    (h : WF s) : WF (onKicked s id reason ts).1 := by
  unfold onKicked
  cases hd : alGet s.botData id with
  | none => exact h
  | some d =>
      simp only
      exact WFm_setData h (by simp)

theorem WF_onErrored (s : Commander) (id : BotId) (h : WF s) :
    WF (onErrored s id).1 := by
  unfold onErrored
  cases hd : alGet s.botData id with
  | none => exact h
  | some d =>
      simp only
      exact WFm_setData h (by simp)

theorem WF_onDied (s : Commander) (id : BotId) (ts : Nat) (h : WF s) :
    WF (onDied s id ts).1 := by
  unfold onDied
  cases hd : alGet s.botData id with
  | none => exact h
  | some d =>
      simp only
      exact WFm_setData h (by simp)

theorem WF_onEnded (s : Commander) (id : BotId) (h : WF s) :
    WF (onEnded s id).1 := by
  unfold onEnded
  cases hd : alGet s.botData id with
  | none => exact WFm_delSession h
  | some d =>
      by_cases hk : d.status = Status.kicked
      · simp only [hk, if_pos rfl]
        exact WFm_delSession h
      · simp only [hk, if_false]
        exact WFm_ended h

theorem WF_executeCommand (s : Commander) (botId : BotId) (command : String)
    (params : Params) (o : Oracle) (h : WF s) :
    WF (executeCommand s botId command params o).state := by
  unfold executeCommand
  cases hb : alGet s.bots botId with
  | none => exact h
  | some bot =>
      simp only [Session.statusProp, reduceCtorEq, if_false]
      cases hd : alGet s.botData botId with
      | none => exact h
      | some data0 =>
          simp only
          by_cases h1 : command = "chat"
          · simp only [h1, if_true]
            exact WFm_setData_keep h hd rfl
          · simp only [h1, if_false]
            by_cases h2 : command = "move"
            · simp only [h2, if_true]
              by_cases hg : o.gotoOk
              · rw [if_pos hg]
                show WFm _
                  (alSet (alSet (alSet s.botData botId _) botId _) botId _)
                rw [alSet_alSet, alSet_alSet]
                exact WFm_setData_keep h hd rfl
              · rw [if_neg hg]
                show WFm _ (alSet (alSet s.botData botId _) botId _)
                rw [alSet_alSet]
                exact WFm_setData_keep h hd rfl
            · simp only [h2, if_false]
              by_cases h3 : command = "follow"
              · simp only [h3, if_true]
                by_cases hp : o.playerFound
                · rw [if_pos hp]
                  show WFm _ (alSet (alSet s.botData botId _) botId _)
                  rw [alSet_alSet]
                  exact WFm_setData_keep h hd rfl
                · rw [if_neg hp]
                  exact WFm_setData_keep h hd rfl
              · simp only [h3, if_false]
                by_cases h4 : command = "stop"
                · simp only [h4, if_true]
                  show WFm _ (alSet (alSet s.botData botId _) botId _)
                  rw [alSet_alSet]
                  exact WFm_setData_keep h hd rfl
                · simp only [h4, if_false]
                  by_cases h5 : command = "jump"
                  · simp only [h5, if_true]
                    show WFm _ (alSet (alSet s.botData botId _) botId _)
                    rw [alSet_alSet]
                    exact WFm_setData_keep h hd rfl
                  · simp only [h5, if_false]
                    by_cases h6 : command = "look"
                    · simp only [h6, if_true]
                      show WFm _ (alSet (alSet s.botData botId _) botId _)
                      rw [alSet_alSet]
                      exact WFm_setData_keep h hd rfl
                    · simp only [h6, if_false]
                      by_cases h7 : command = "inventory"
                      · simp only [h7, if_true]
                        exact WFm_setData_keep h hd rfl
                      · simp only [h7, if_false]
                        by_cases h8 : command = "attack"
                        · simp only [h8, if_true]
                          by_cases he : o.entityFound
                          · rw [if_pos he]
                            show WFm _
                              (alSet (alSet s.botData botId _) botId _)
                            rw [alSet_alSet]
                            exact WFm_setData_keep h hd rfl
                          · rw [if_neg he]
                            exact WFm_setData_keep h hd rfl
                        · simp only [h8, if_false]
                          exact WFm_setData_keep h hd rfl

theorem WF_removeBot (s : Commander) (id : BotId) (h : WF s) :
    WF (removeBot s id).state := by
  unfold removeBot
  cases hb : alGet s.bots id with
  | none => exact h
  | some sess => exact WFm_delBoth h

theorem WF_stopAllBots (s : Commander) (h : WF s) : WF (stopAllBots s).1 :=
  WFm_nil

theorem WF_updateServerConfig (s : Commander) (host : String) (port : Nat)
    (version : String) (h : WF s) :
    WF (updateServerConfig s host port version).1 := h

theorem WF_onActivityTimeout (s : Commander) (id : BotId) (expect : String)
    (h : WF s) : WF (onActivityTimeout s id expect) := by
  unfold onActivityTimeout
  cases hd : alGet s.botData id with
  | none => exact h
  | some d =>
      by_cases ha : d.activity = expect
      · simp only [ha, if_pos rfl]
        exact WFm_setData_keep h hd rfl
      · simp only [ha, if_false]
        exact h

theorem WF_onAttackTimeout (s : Commander) (id : BotId) (h : WF s) :
    WF (onAttackTimeout s id) := by
  unfold onAttackTimeout
  cases hd : alGet s.botData id with
  | none => exact h
  | some d =>
      by_cases ha : d.activity.startsWith "attacking" = true
      · simp only [ha, if_true]
        exact WFm_setData_keep h hd rfl
      · simp only [ha, if_false]
        exact h

theorem WF_onTimerChat (s : Commander) (h : WF s) : WF (onTimerChat s) := h

theorem WF_onPositionTick (s : Commander) (id : BotId) (p : Vec3)
    (health food : Int) (h : WF s) :
    WF (onPositionTick s id p health food) := by
  unfold onPositionTick
  cases hb : alGet s.bots id with
  | none => exact h
  | some sess =>
      cases hd : alGet s.botData id with
      | none => exact h
      | some d =>
          simp only
          exact WFm_setData_keep h hd rfl

/-- Every reachable commander state is well-formed: map keys are unique and a
disconnected record never coexists with a registered session of the same
id. -/
theorem reachable_wf (s : Commander) (h : Reachable s) : WF s := by
  induction h with
  | init startTime cfg => exact WFm_nil
  | create s id name ok _ ih => exact WF_createBot s id name ok ih
  | spawned s id now _ ih => exact WF_onSpawned s id now ih
  | chatMsg s id username message ts mentioned _ ih =>
      exact WF_onChatMessage s id username message ts mentioned ih
  | kicked s id reason ts _ ih => exact WF_onKicked s id reason ts ih
  | errored s id _ ih => exact WF_onErrored s id ih
  | died s id ts _ ih => exact WF_onDied s id ts ih
  | ended s id _ ih => exact WF_onEnded s id ih
  | exec s id command params o _ ih =>
      exact WF_executeCommand s id command params o ih
  | remove s id _ ih => exact WF_removeBot s id ih
  | stopAll s _ ih => exact WF_stopAllBots s ih
  | configUpdate s host port version _ ih =>
      exact WF_updateServerConfig s host port version ih
  | activityTimeout s id expect _ ih =>
      exact WF_onActivityTimeout s id expect ih
  | attackTimeout s id _ ih => exact WF_onAttackTimeout s id ih
  | timerChat s _ ih => exact WF_onTimerChat s ih
  | positionTick s id p health food _ ih =>
      exact WF_onPositionTick s id p health food ih

/-! Concrete states shared by the witness and counterexample theorems below:
one bot with id 0 created against the default configuration, then driven
through the lifecycle events. -/

def demoInit : Commander := initCommander 0 defaultServerConfig

def demoCreated : Commander := (createBot demoInit 0 none true).1

def demoConnected : Commander := (onSpawned demoCreated 0 5).1

def demoKicked : Commander := (onKicked demoConnected 0 "spam" 9).1

def demoEndedAfterKick : Commander := (onEnded demoKicked 0).1

def demoDead : Commander := (onDied demoConnected 0 7).1

def demoEnded : Commander := (onEnded demoConnected 0).1

/-- The record registered for bot 0 in demoConnected. -/
def demoConnectedRecord : BotData :=
  { id := 0, name := "CommanderBot0", status := Status.connected,
    position := { x := 0, y := 0, z := 0 }, health := 20, food := 20,
    activity := "waiting", connectedAt := some 5,
    server := "localhost:25565", lastCommand := none }

/-- The record registered for bot 0 in demoKicked and demoEndedAfterKick. -/
def demoKickedRecord : BotData :=
  { demoConnectedRecord with status := Status.kicked, activity := "kicked" }

/-- The record registered for bot 0 in demoEnded. -/
def demoEndedRecord : BotData :=
  { demoConnectedRecord with status := Status.disconnected }

def oracle0 : Oracle :=
  { now := 11, histTs := 12, gotoOk := true, errMsg := "goal failed",
    playerFound := true, entityFound := true, items := [],
    randYaw := 7, randPitch := 3 }

theorem demoInit_reachable : Reachable demoInit :=
  Reachable.init 0 defaultServerConfig

theorem demoCreated_reachable : Reachable demoCreated :=
  Reachable.create demoInit 0 none true demoInit_reachable

theorem demoConnected_reachable : Reachable demoConnected :=
  Reachable.spawned demoCreated 0 5 demoCreated_reachable

theorem demoKicked_reachable : Reachable demoKicked :=
  Reachable.kicked demoConnected 0 "spam" 9 demoConnected_reachable

theorem demoEndedAfterKick_reachable : Reachable demoEndedAfterKick :=
  Reachable.ended demoKicked 0 demoKicked_reachable

theorem demoDead_reachable : Reachable demoDead :=
  Reachable.died demoConnected 0 7 demoConnected_reachable

theorem demoEnded_reachable : Reachable demoEnded :=
  Reachable.ended demoConnected 0 demoConnected_reachable

/-! Facts about histInsert needed by the history claims. -/

theorem histInsert_head (h : List HistoryEntry) (e : HistoryEntry) :
    (histInsert h e).head? = some e := by
  unfold histInsert
  by_cases hlen : (e :: h).length > 50
  · rw [if_pos hlen]
    cases h with
    | nil => simp at hlen
    | cons a t => simp [List.dropLast]
  · rw [if_neg hlen]
    rfl

theorem histInsert_eq_take (h : List HistoryEntry) (e : HistoryEntry)
    (hlen : h.length ≤ 50) : histInsert h e = (e :: h).take 50 := by
  unfold histInsert
  rcases Nat.lt_or_ge h.length 50 with hlt | hge
  · have hle : ¬ ((e :: h).length > 50) := by
      simp only [List.length_cons]
      omega
    rw [if_neg hle]
    exact (List.take_of_length_le (by simp; omega)).symm
  · have h50 : h.length = 50 := Nat.le_antisymm hlen hge
    have hgt : (e :: h).length > 50 := by
      simp [h50]
    rw [if_pos hgt]
    have : (e :: h).dropLast = (e :: h).take ((e :: h).length - 1) := by
      rw [List.dropLast_eq_take]
    rw [this]
    simp [h50]

theorem take_cons_take (e : HistoryEntry) (xs : List HistoryEntry) (n : Nat) :
    ((e :: xs.take n).take n) = (e :: xs).take n := by
  cases n with
  | zero => simp
  | succ m =>
      simp only [List.take_succ_cons]
      rw [List.take_take]
      have hmin : min m (m + 1) = m := by omega
      have hmin2 : min (m + 1) m = m := by omega
      simp [hmin, hmin2]

theorem histFold_eq_take (es : List HistoryEntry) :
    es.foldl histInsert [] = es.reverse.take 50 := by
  induction es using List.reverseRecOn with
  | nil => simp
  | append_singleton l e ih =>
      rw [List.foldl_append]
      simp only [List.foldl_cons, List.foldl_nil]
      rw [ih]
      have hlen : (l.reverse.take 50).length ≤ 50 := by
        rw [List.length_take]
        omega
      rw [histInsert_eq_take _ _ hlen, take_cons_take]
      simp

/-! Claim C1. -/

/-- The invariant asserted by the spec: the activeBots counter equals the
number of records in state connected. -/
def activeMatches (s : Commander) : Prop :=
  s.stats.activeBots = (connectedCount s.botData : Int)

/-- C1 counterexample: the claim fails on the code.  The reachable state
created by create, spawned, died has activeBots = 1 but zero connected
records: the death handler (and likewise the error handler) moves the status
away from connected without adjusting the counter, so immediately after the
died transition settles the equality does not hold. -/
theorem C1_counterexample :
    Reachable demoDead ∧ demoDead.stats.activeBots = 1 ∧
    connectedCount demoDead.botData = 0 ∧ ¬ activeMatches demoDead := by
  refine ⟨demoDead_reachable, by decide, by decide, ?_⟩
  unfold activeMatches
  decide

/-- C1 (amended): activeBots = #connected is preserved by create on an id
with no registered record, by spawned on a connecting record, by kicked on a
connected record, by ended on a connected record and by stop-all; the error
and died handlers, ended after kicked, and removal of a connected record
break it (counterexample above). -/
theorem C1_theorem (s : Commander) (h : activeMatches s) :
    (∀ id name ok, alGet s.botData id = none →
      activeMatches (createBot s id name ok).1) ∧
    (∀ id d now, alGet s.botData id = some d →
      d.status = Status.connecting → activeMatches (onSpawned s id now).1) ∧
    (∀ id d reason ts, alGet s.botData id = some d →
      d.status = Status.connected →
      activeMatches (onKicked s id reason ts).1) ∧
    (∀ id d, alGet s.botData id = some d → d.status = Status.connected →
      activeMatches (onEnded s id).1) ∧
    activeMatches (stopAllBots s).1 := by
  unfold activeMatches at h
  refine ⟨?_, ?_, ?_, ?_, ?_⟩
  · intro id name ok hfresh
    unfold activeMatches createBot
    cases ok with
    | true =>
        rw [if_pos rfl]
        simp only
        rw [connectedCount_alSet_none _ _ _ hfresh]
        simp only [reduceCtorEq, if_false]
        omega
    | false =>
        rw [if_neg (by simp)]
        simp only
        rw [connectedCount_alSet_none _ _ _ hfresh]
        simp only [reduceCtorEq, if_false]
        omega
  · intro id d now hd hst
    unfold activeMatches onSpawned
    rw [hd]
    simp only
    have hcc := connectedCount_alSet_some s.botData id d
      { d with status := Status.connected, connectedAt := some now } hd
    rw [hst] at hcc
    simp at hcc
    omega
  · intro id d reason ts hd hst
    unfold activeMatches onKicked addToHistory
    rw [hd]
    simp only
    have hcc := connectedCount_alSet_some s.botData id d
      { d with status := Status.kicked, activity := "kicked" } hd
    rw [hst] at hcc
    simp at hcc
    omega
  · intro id d hd hst
    unfold activeMatches onEnded
    rw [hd]
    simp only
    have hnk : ¬ (d.status = Status.kicked) := by
      rw [hst]
      simp
    rw [if_neg hnk]
    have hcc := connectedCount_alSet_some s.botData id d
      { d with status := Status.disconnected } hd
    rw [hst] at hcc
    simp at hcc
    omega
  · unfold activeMatches stopAllBots
    simp [connectedCount]

/-- C1 witness: the preserved cases applied in the one-bot connected state. -/
theorem C1_witness :
    activeMatches (onKicked demoConnected 0 "spam" 9).1 ∧
    activeMatches (stopAllBots demoConnected).1 := by
  have h : activeMatches demoConnected := by
    unfold activeMatches
    decide
  have hall := C1_theorem demoConnected h
  exact ⟨hall.2.2.1 0 demoConnectedRecord "spam" 9 (by decide) (by decide),
    hall.2.2.2.2⟩

/-! Claim C2. -/

/-- C2: the history list is a capped newest-first buffer.  New entries go to
the head; the list built by any insertion sequence never exceeds 50 entries
and equals the last 50 inserts in reverse order (so once full, each insert
evicts the tail and after 51 inserts the first entry is gone); when the
inserted timestamps are non-decreasing in insertion order (the wall clock),
the buffer is in non-increasing timestamp order from head to tail. -/
theorem C2_theorem (es : List HistoryEntry)
    (hmono : es.Pairwise (fun a b => a.timestamp ≤ b.timestamp)) :
    (∀ h e, (histInsert h e).head? = some e) ∧
    (es.foldl histInsert []).length ≤ 50 ∧
    es.foldl histInsert [] = es.reverse.take 50 ∧
    (es.foldl histInsert []).Pairwise
      (fun a b => b.timestamp ≤ a.timestamp) ∧
    (∀ e0 rest, es = e0 :: rest → es.length = 51 → e0 ∉ rest →
      e0 ∉ es.foldl histInsert []) := by
  have hfold := histFold_eq_take es
  refine ⟨histInsert_head, ?_, hfold, ?_, ?_⟩
  · rw [hfold, List.length_take]
    omega
  · rw [hfold]
    have hrev : es.reverse.Pairwise (fun a b => b.timestamp ≤ a.timestamp) := by
      rw [List.pairwise_reverse]
      exact hmono
    exact hrev.sublist (List.take_sublist _ _)
  · intro e0 rest hes hlen hnot
    rw [hfold, hes]
    have hrl : rest.reverse.length = 50 := by
      rw [hes] at hlen
      simp only [List.length_cons] at hlen
      simp
      omega
    rw [List.reverse_cons, List.take_left' hrl]
    intro hmem
    exact hnot (List.mem_reverse.mp hmem)

/-- The 51 pairwise distinct entries driven through the buffer by the C2
witness. -/
def demoEntries : List HistoryEntry :=
  (List.range 51).map (fun i =>
    { timestamp := i, type := "system", message := "tick", botCount := 0 })

def demoEntry0 : HistoryEntry :=
  { timestamp := 0, type := "system", message := "tick", botCount := 0 }

/-- C2 witness: 51 concrete inserts stay within the cap, equal the last 50 in
reverse order, are sorted newest-first, and have evicted the first entry. -/
theorem C2_witness :
    (demoEntries.foldl histInsert []).length ≤ 50 ∧
    demoEntries.foldl histInsert [] = demoEntries.reverse.take 50 ∧
    (demoEntries.foldl histInsert []).Pairwise
      (fun a b => b.timestamp ≤ a.timestamp) ∧
    demoEntry0 ∉ demoEntries.foldl histInsert [] := by
  have h := C2_theorem demoEntries (by decide)
  exact ⟨h.2.1, h.2.2.1, h.2.2.2.1,
    h.2.2.2.2 demoEntry0 demoEntries.tail (by decide) (by decide)
      (by decide)⟩

/-! Claim C3. -/

theorem foldCreate_reachable (s : Commander) (ids : List BotId)
    (h : Reachable s) :
    Reachable (ids.foldl (fun t i => (createBot t i none true).1) s) := by
  induction ids generalizing s with
  | nil => exact h
  | cons i tl ih => exact ih _ (Reachable.create s i none true h)

/-- Ten bots with ids 0..9, filling the fleet up to the configured maxBots of
the default configuration. -/
def fleet10 : Commander :=
  (List.range 10).foldl (fun t i => (createBot t i none true).1) demoInit

theorem fleet10_reachable : Reachable fleet10 :=
  foldCreate_reachable demoInit (List.range 10) demoInit_reachable

/-- C3 counterexample: the claim fails on the code.  With the fleet already at
maxBots = 10, the create entry point succeeds (no CapacityExceeded path exists
anywhere in the source: maxBots is only displayed) and the Fleet grows to
11 records. -/
theorem C3_counterexample :
    Reachable fleet10 ∧
    fleetSize fleet10 = fleet10.serverConfig.maxBots ∧
    (apiCreateBot fleet10 none true).success = true ∧
    fleetSize (apiCreateBot fleet10 none true).state =
      fleet10.serverConfig.maxBots + 1 := by
  refine ⟨fleet10_reachable, by decide, by decide, by decide⟩

/-- C3 (amended): there is no capacity check.  Whenever the fleet already has
exactly maxBots records and session creation succeeds, the create request
still succeeds and the Fleet grows past the configured limit. -/
theorem C3_theorem (s : Commander)
    (hsize : fleetSize s = s.serverConfig.maxBots)
    (hfresh : alGet s.botData s.bots.length = none) :
    (apiCreateBot s none true).success = true ∧
    fleetSize (apiCreateBot s none true).state =
      s.serverConfig.maxBots + 1 := by
  refine ⟨rfl, ?_⟩
  show ((createBot s s.bots.length none true).1.botData).length = _
  unfold createBot
  rw [if_pos rfl]
  simp only
  rw [alSet_length_of_get_none _ _ _ hfresh]
  rw [← hsize]
  rfl

/-- C3 witness: the amended theorem applied to the full ten-bot fleet. -/
theorem C3_witness :
    (apiCreateBot fleet10 none true).success = true ∧
    fleetSize (apiCreateBot fleet10 none true).state =
      fleet10.serverConfig.maxBots + 1 :=
  C3_theorem fleet10 (by decide) (by decide)

/-! Claim C4. -/

/-- C4 counterexample: the claim fails on the code.  Creating a bot whose id
is already registered and connected is not rejected (the session is created
and registered) and does not disconnect the prior session: the emitted
actions contain a connect and no quit, so the prior session stays alive,
merely dropped from the registry. -/
theorem C4_counterexample :
    alGet demoConnected.botData 0 = some demoConnectedRecord ∧
    demoConnectedRecord.status = Status.connected ∧
    (alGet demoConnected.bots 0).isSome = true ∧
    (createBot demoConnected 0 none true).2 =
      [BotAction.connect 0 "CommanderBot0"] ∧
    (createBot demoConnected 0 none true).2.filter BotAction.isQuit = [] := by
  refine ⟨by decide, by decide, by decide, by decide, by decide⟩

/-- C4 (amended): a create on an id that is registered and connected always
takes the success path (never DuplicateId): the registered session handle and
the record are replaced in place, so a single session stays registered under
the id, but no disconnect is ever issued to the prior session. -/
theorem C4_theorem (s : Commander) (id : BotId) (sess : Session)
    (d : BotData) (hs : alGet s.bots id = some sess)
    (hd : alGet s.botData id = some d) (hconn : d.status = Status.connected) :
    alGet (createBot s id none true).1.bots id =
      some { username := s.serverConfig.defaultBotPrefix ++ toString id } ∧
    alGet (createBot s id none true).1.botData id = some
      { id := id, name := s.serverConfig.defaultBotPrefix ++ toString id,
        status := Status.connecting,
        position := { x := 0, y := 0, z := 0 }, health := 20, food := 20,
        activity := "waiting", connectedAt := none,
        server := s.serverConfig.host ++ ":" ++ toString s.serverConfig.port,
        lastCommand := none } ∧
    (createBot s id none true).2 =
      [BotAction.connect id
        (s.serverConfig.defaultBotPrefix ++ toString id)] ∧
    ∀ a ∈ (createBot s id none true).2, a.isQuit = false := by
  unfold createBot
  rw [if_pos rfl]
  refine ⟨alGet_alSet_self _ _ _, alGet_alSet_self _ _ _, rfl, ?_⟩
  intro a ha
  simp only [List.mem_singleton] at ha
  rw [ha]
  rfl

/-- C4 witness: the amended theorem at the connected one-bot state. -/
theorem C4_witness :
    alGet (createBot demoConnected 0 none true).1.bots 0 =
      some { username := "CommanderBot0" } ∧
    (createBot demoConnected 0 none true).2 =
      [BotAction.connect 0 "CommanderBot0"] := by
  have h := C4_theorem demoConnected 0 { username := "CommanderBot0" }
    demoConnectedRecord (by decide) (by decide) (by decide)
  exact ⟨h.1, h.2.2.1⟩

/-! Claim C5. -/

/-- The eight command kinds handled by the dispatcher switch. -/
def knownCommands : List String :=
  ["chat", "move", "follow", "stop", "jump", "look", "inventory", "attack"]

/-- C5 counterexample: the claim fails on the code.  Executing the unknown
command fly on an available agent does return the unknown-command failure and
appends no history entry, but it is NOT free of side effects: lastCommand is
overwritten and commandsExecuted is incremented before the switch
dispatches. -/
theorem C5_counterexample :
    (executeCommand demoConnected 0 "fly" {} oracle0).result.success =
      false ∧
    (executeCommand demoConnected 0 "fly" {} oracle0).result.error =
      some "Commande inconnue: fly" ∧
    (executeCommand demoConnected 0 "fly" {} oracle0).state.commandHistory =
      demoConnected.commandHistory ∧
    demoConnected.stats.commandsExecuted = 0 ∧
    (executeCommand demoConnected 0 "fly" {} oracle0).state.stats.commandsExecuted = 1 ∧
    alGet (executeCommand demoConnected 0 "fly" {} oracle0).state.botData 0 =
      some { demoConnectedRecord with
        lastCommand := some { command := "fly", params := {}, timestamp := 11 } } := by
  refine ⟨by decide, by decide, by decide, by decide, by decide, by decide⟩

/-- C5 (amended): an unknown command on an available agent fails naming the
command, emits no session action, appends no history entry and leaves
messagesSent, movements, errors, activeBots and the session registry
untouched; but commandsExecuted is incremented and the lastCommand field of
the record is overwritten before dispatch. -/
theorem C5_theorem (s : Commander) (id : BotId) (sess : Session)
    (d : BotData) (command : String) (params : Params) (o : Oracle)
    (hs : alGet s.bots id = some sess) (hd : alGet s.botData id = some d)
    (hunk : command ∉ knownCommands) :
    (executeCommand s id command params o).result.success = false ∧
    (executeCommand s id command params o).result.error =
      some ("Commande inconnue: " ++ command) ∧
    (executeCommand s id command params o).actions = [] ∧
    (executeCommand s id command params o).state.commandHistory =
      s.commandHistory ∧
    (executeCommand s id command params o).state.stats.messagesSent =
      s.stats.messagesSent ∧
    (executeCommand s id command params o).state.stats.movements =
      s.stats.movements ∧
    (executeCommand s id command params o).state.stats.errors =
      s.stats.errors ∧
    (executeCommand s id command params o).state.stats.activeBots =
      s.stats.activeBots ∧
    (executeCommand s id command params o).state.stats.commandsExecuted =
      s.stats.commandsExecuted + 1 ∧
    (executeCommand s id command params o).state.bots = s.bots ∧
    alGet (executeCommand s id command params o).state.botData id =
      some { d with
        lastCommand := some { command := command, params := params, timestamp := o.now } } := by
  simp only [knownCommands, List.mem_cons, List.not_mem_nil, or_false,
    not_or] at hunk
  obtain ⟨h1, h2, h3, h4, h5, h6, h7, h8⟩ := hunk
  unfold executeCommand
  rw [hs]
  simp only [Session.statusProp, reduceCtorEq, if_false]
  rw [hd]
  simp only
  rw [if_neg h1, if_neg h2, if_neg h3, if_neg h4, if_neg h5, if_neg h6,
    if_neg h7, if_neg h8]
  refine ⟨rfl, rfl, rfl, rfl, rfl, rfl, rfl, rfl, rfl, rfl, ?_⟩
  exact alGet_alSet_self _ _ _

/-- C5 witness: the amended theorem at the connected one-bot state with the
unknown command fly. -/
theorem C5_witness :
    (executeCommand demoConnected 0 "fly" {} oracle0).result.error =
      some "Commande inconnue: fly" ∧
    (executeCommand demoConnected 0 "fly" {} oracle0).state.stats.commandsExecuted =
      demoConnected.stats.commandsExecuted + 1 := by
  have h := C5_theorem demoConnected 0 { username := "CommanderBot0" }
    demoConnectedRecord "fly" {} oracle0 (by decide) (by decide) (by decide)
  exact ⟨h.2.1, h.2.2.2.2.2.2.2.2.1⟩

/-! Claim C6. -/

/-- C6: executing move on an agent whose session is gone, or whose record is
disconnected (which in every reachable state implies the session is gone),
fails with the unavailable error, leaves the whole state unchanged and in
particular leaves the movements counter unchanged. -/
theorem C6_theorem (s : Commander) (id : BotId) (params : Params)
    (o : Oracle) (hr : Reachable s)
    (h : alGet s.bots id = none ∨
      ∃ d, alGet s.botData id = some d ∧
        d.status = Status.disconnected) :
    (executeCommand s id "move" params o).state = s ∧
    (executeCommand s id "move" params o).result.success = false ∧
    (executeCommand s id "move" params o).result.error =
      some "Bot non disponible" ∧
    (executeCommand s id "move" params o).state.stats.movements =
      s.stats.movements := by
  have hnone : alGet s.bots id = none := by
    rcases h with h | ⟨d, hd, hst⟩
    · exact h
    · refine (reachable_wf s hr).2.2 id ?_
      rw [statusAt, hd, Option.map_some', hst]
  unfold executeCommand
  rw [hnone]
  exact ⟨rfl, rfl, rfl, rfl⟩

/-- C6 witness: the theorem applied after create, spawned, ended, where the
record of bot 0 is still registered and disconnected while the session is
gone. -/
theorem C6_witness :
    (∃ d, alGet demoEnded.botData 0 = some d ∧
      d.status = Status.disconnected) ∧
    (executeCommand demoEnded 0 "move"
      { x := some 1, y := some 2, z := some 3 } oracle0).result.error =
      some "Bot non disponible" ∧
    (executeCommand demoEnded 0 "move"
      { x := some 1, y := some 2, z := some 3 } oracle0).state.stats.movements
      = demoEnded.stats.movements := by
  have h := C6_theorem demoEnded 0
    { x := some 1, y := some 2, z := some 3 } oracle0 demoEnded_reachable
    (Or.inr ⟨demoEndedRecord, by decide, by decide⟩)
  exact ⟨⟨demoEndedRecord, by decide, by decide⟩, h.2.2.1, h.2.2.2⟩

/-! Claim C7. -/

/-- C7 counterexample: the claim fails on the code.  A kicked event on the
connected bot marks it kicked and decrements active, but schedules nothing:
the emitted action list is empty, so no single 10-second re-registration
exists (the source has no reconnection code and no autoReconnect flag at
all). -/
theorem C7_counterexample :
    alGet demoConnected.botData 0 = some demoConnectedRecord ∧
    demoConnectedRecord.status = Status.connected ∧
    (onKicked demoConnected 0 "spam" 9).2 = [] ∧
    ¬ ((onKicked demoConnected 0 "spam" 9).2.countP
        BotAction.isReconnect = 1) := by
  refine ⟨by decide, by decide, by decide, by decide⟩

/-- C7 (amended): the kicked handler marks the record kicked (status and
activity), decrements activeBots and appends a system history entry, and
schedules nothing: no reconnection attempt, with any backoff, ever. -/
theorem C7_theorem (s : Commander) (id : BotId) (d : BotData)
    (reason : String) (ts : Nat) (hd : alGet s.botData id = some d) :
    alGet (onKicked s id reason ts).1.botData id =
      some { d with status := Status.kicked, activity := "kicked" } ∧
    (onKicked s id reason ts).1.stats.activeBots =
      s.stats.activeBots - 1 ∧
    ((onKicked s id reason ts).1.commandHistory.head?).map
      HistoryEntry.type = some "system" ∧
    (onKicked s id reason ts).2 = [] := by
  unfold onKicked
  rw [hd]
  simp only
  refine ⟨?_, ?_, ?_, ?_⟩
  · show alGet (addToHistory _ _ _ _).botData id = _
    rw [addToHistory_botData]
    exact alGet_alSet_self _ _ _
  · trivial
  · show ((histInsert _ _).head?).map HistoryEntry.type = _
    rw [histInsert_head]
    rfl
  · trivial

/-- C7 witness: the amended theorem at the connected one-bot state. -/
theorem C7_witness :
    alGet (onKicked demoConnected 0 "spam" 9).1.botData 0 =
      some demoKickedRecord ∧
    (onKicked demoConnected 0 "spam" 9).1.stats.activeBots =
      demoConnected.stats.activeBots - 1 ∧
    (onKicked demoConnected 0 "spam" 9).2 = [] := by
  have h := C7_theorem demoConnected 0 demoConnectedRecord "spam" 9
    (by decide)
  exact ⟨h.1, h.2.1, h.2.2.2⟩

/-! Claim C8. -/

/-- C8 counterexample: the claim fails on the code.  An ended event on a bot
whose record is kicked does NOT move it to disconnected: the guard at line
1183 keeps the kicked status.  The unconditional decrement also drives
activeBots to -1 after the kick already decremented it. -/
theorem C8_counterexample :
    alGet demoKicked.botData 0 = some demoKickedRecord ∧
    alGet demoEndedAfterKick.botData 0 = some demoKickedRecord ∧
    demoKickedRecord.status = Status.kicked ∧
    ¬ demoKickedRecord.status = Status.disconnected ∧
    alGet demoEndedAfterKick.bots 0 = none ∧
    demoKicked.stats.activeBots = 0 ∧
    demoEndedAfterKick.stats.activeBots = -1 := by
  refine ⟨by decide, by decide, by decide, by decide, by decide, by decide,
    by decide⟩

/-- C8 (amended): on an ended event the session handle is always removed and
activeBots always decremented, and the record becomes disconnected unless it
is currently kicked, in which case it keeps the kicked status. -/
theorem C8_theorem (s : Commander) (id : BotId) :
    alGet (onEnded s id).1.bots id = none ∧
    (onEnded s id).1.stats.activeBots = s.stats.activeBots - 1 ∧
    (∀ d, alGet s.botData id = some d →
      alGet (onEnded s id).1.botData id =
        some (if d.status = Status.kicked then d
              else { d with status := Status.disconnected })) := by
  refine ⟨?_, ?_, ?_⟩
  · show alGet (alDel s.bots id) id = none
    exact alGet_alDel_self _ _
  · rfl
  · intro d hd
    unfold onEnded
    rw [hd]
    simp only
    by_cases hk : d.status = Status.kicked
    · rw [if_pos hk, if_pos hk]
      exact hd
    · rw [if_neg hk, if_neg hk]
      exact alGet_alSet_self _ _ _

/-- C8 witness: the amended theorem at the kicked one-bot state, where the
kicked branch of the conclusion applies. -/
theorem C8_witness :
    alGet (onEnded demoKicked 0).1.bots 0 = none ∧
    (onEnded demoKicked 0).1.stats.activeBots =
      demoKicked.stats.activeBots - 1 ∧
    alGet (onEnded demoKicked 0).1.botData 0 =
      some (if demoKickedRecord.status = Status.kicked then demoKickedRecord
            else { demoKickedRecord with status := Status.disconnected }) := by
  have h := C8_theorem demoKicked 0
  exact ⟨h.1, h.2.1, h.2.2 demoKickedRecord (by decide)⟩

/-! Claim C9. -/

/-- C9 counterexample: the claim fails on the code.  After create, spawned,
ended, the record of bot 0 is still registered in the Fleet (status
disconnected) but the session is gone; removeBot is keyed on the session map,
returns false (the DELETE route answers 404 NotFound) and leaves the record
in the Fleet, so an ended-but-listed agent cannot be removed. -/
theorem C9_counterexample :
    alGet demoEnded.botData 0 = some demoEndedRecord ∧
    (removeBot demoEnded 0).ok = false ∧
    (removeBot demoEnded 0).state = demoEnded ∧
    alGet (removeBot demoEnded 0).state.botData 0 = some demoEndedRecord := by
  refine ⟨by decide, by decide, by decide, by decide⟩

/-- C9 (amended): remove succeeds exactly when a session handle is registered
for the id; in that case it quits the session and removes both the handle and
the record; when the session is absent it fails with NotFound and changes
nothing, even if an Agent Record for the id is still in the Fleet. -/
theorem C9_theorem (s : Commander) (id : BotId) :
    ((removeBot s id).ok = true ↔ (alGet s.bots id).isSome = true) ∧
    (∀ sess, alGet s.bots id = some sess →
      (removeBot s id).actions = [BotAction.quit id] ∧
      alGet (removeBot s id).state.bots id = none ∧
      alGet (removeBot s id).state.botData id = none) ∧
    (alGet s.bots id = none →
      (removeBot s id).state = s ∧ (removeBot s id).actions = []) := by
  unfold removeBot
  cases hb : alGet s.bots id with
  | none =>
      refine ⟨by simp, ?_, fun _ => ⟨rfl, rfl⟩⟩
      intro sess hsess
      simp at hsess
  | some sess0 =>
      refine ⟨by simp, ?_, ?_⟩
      · intro sess hsess
        exact ⟨rfl, alGet_alDel_self _ _, alGet_alDel_self _ _⟩
      · intro hnone
        simp at hnone

/-- C9 witness: removing the connected bot 0 succeeds, quits the session and
drops both map entries. -/
theorem C9_witness :
    ((removeBot demoConnected 0).ok = true ↔
      (alGet demoConnected.bots 0).isSome = true) ∧
    (removeBot demoConnected 0).actions = [BotAction.quit 0] ∧
    alGet (removeBot demoConnected 0).state.bots 0 = none ∧
    alGet (removeBot demoConnected 0).state.botData 0 = none := by
  have h := C9_theorem demoConnected 0
  exact ⟨h.1, h.2.1 { username := "CommanderBot0" } (by decide)⟩

/-! Claim C10. -/

/-- C10: in the look command, a caller-supplied yaw or pitch of exactly 0 is
falsy in the JS defaulting expression, so it is replaced by the random draw
exactly as if it were omitted; only nonzero supplied values are applied
verbatim.  In particular look with yaw 0 and pitch 0 orients the agent to the
random angles, not to 0. -/
theorem C10_theorem (s : Commander) (id : BotId) (sess : Session)
    (d : BotData) (o : Oracle) (hs : alGet s.bots id = some sess)
    (hd : alGet s.botData id = some d) :
    (executeCommand s id "look"
      { yaw := some 0, pitch := some 0 } o).actions =
      [BotAction.lookAt id o.randYaw o.randPitch] ∧
    (executeCommand s id "look" {} o).actions =
      [BotAction.lookAt id o.randYaw o.randPitch] ∧
    (∀ v w : Rat, v ≠ 0 → w ≠ 0 →
      (executeCommand s id "look"
        { yaw := some v, pitch := some w } o).actions =
        [BotAction.lookAt id v w]) := by
  have hred : ∀ (params : Params),
      (executeCommand s id "look" params o).actions =
        [BotAction.lookAt id (jsOrRat params.yaw o.randYaw)
          (jsOrRat params.pitch o.randPitch)] := by
    intro params
    unfold executeCommand
    rw [hs]
    simp only [Session.statusProp, reduceCtorEq, if_false]
    rw [hd]
    rfl
  refine ⟨?_, ?_, ?_⟩
  · rw [hred]
    simp [jsOrRat]
  · rw [hred]
    simp [jsOrRat]
  · intro v w hv hw
    rw [hred]
    simp only [jsOrRat, if_neg hv, if_neg hw]

/-- C10 witness: on the connected bot, look with explicit zeros applies the
random draws of the oracle, and look with nonzero angles applies them
verbatim. -/
theorem C10_witness :
    (executeCommand demoConnected 0 "look"
      { yaw := some 0, pitch := some 0 } oracle0).actions =
      [BotAction.lookAt 0 7 3] ∧
    (executeCommand demoConnected 0 "look"
      { yaw := some 1, pitch := some 2 } oracle0).actions =
      [BotAction.lookAt 0 1 2] := by
  have h := C10_theorem demoConnected 0 { username := "CommanderBot0" }
    demoConnectedRecord oracle0 (by decide) (by decide)
  exact ⟨h.1, h.2.2 1 2 (by decide) (by decide)⟩
